import Mathlib

/-
Verification of the mongodb-backup-wizard core against its specification.

Shallow embedding of:
  - the type codec: json_serialize and process_document (mongowiz/core/backup.py,
    lines 17-62) and restore_types (mongowiz/core/restore.py, lines 52-65);
  - the backup pipeline: backup_collection (mongowiz/core/backup.py, lines 96-228),
    including its batch loop, resume cursor and retry loop;
  - the restore pipeline: restore_collection (mongowiz/core/restore.py, lines 67-137).

Python values flowing through the codec are modelled by the inductive type Value.
Machine-level details that the codec never inspects are abstracted by their canonical
injective representation:
  - a float64 is carried as its bit pattern (the codec is the identity on numbers);
  - a datetime is carried as its ISO-8601 string: datetime.isoformat is injective and
    datetime.fromisoformat is its left inverse, so the string faithfully represents
    the timestamp at the precision the codec preserves;
  - an ObjectId is carried as its 24-character hex string: str(ObjectId) yields that
    string and the ObjectId constructor inverts it.
Fallible Python code (constructors that raise, json.load) is modelled with Except /
an explicit result state.
-/

/-- A Python value as seen by the codec: the scalar types, binary blobs (bytes or
bson.Binary, with their sub-type marker), datetimes, ObjectIds, and nested
string-keyed documents and arrays. -/
inductive Value where
  | null
  | bool (b : Bool)
  | int (n : Int)
  | float (bits : Nat)
  | str (s : String)
  | binary (data : List Nat) (subtype : Nat)
  | datetime (iso : String)
  | objectId (hex : String)
  | doc (fields : List (String × Value))
  | arr (items : List Value)

/-- Hexadecimal digit character, as used by the CPython bytes repr. -/
def hexDigit (n : Nat) : Char :=
  if n < 10 then Char.ofNat (48 + n) else Char.ofNat (87 + n)

/-- Escape of one byte in the CPython bytes repr, for a given quote character:
backslash and the quote are escaped, tab, newline and carriage return use their
short escapes, other printable ASCII is kept, and everything else is a hex escape. -/
def pyByteEscape (quote : Nat) (c : Nat) : String :=
  if c = 92 then "\\\\"
  else if c = quote then "\\" ++ String.singleton (Char.ofNat quote)
  else if c = 9 then "\\t"
  else if c = 10 then "\\n"
  else if c = 13 then "\\r"
  else if 32 ≤ c && c ≤ 126 then String.singleton (Char.ofNat c)
  else "\\x" ++ String.singleton (hexDigit (c / 16)) ++ String.singleton (hexDigit (c % 16))

/-- CPython repr of a bytes object: single-quoted unless the data contains a single
quote and no double quote. -/
def pyBytesRepr (data : List Nat) : String :=
  let quote : Nat := if data.contains 39 && !(data.contains 34) then 34 else 39
  "b" ++ String.singleton (Char.ofNat quote)
    ++ String.join (data.map (pyByteEscape quote))
    ++ String.singleton (Char.ofNat quote)

/-- str(obj) for a binary blob, as evaluated by json_serialize's bytes branch: the
pymongo driver decodes BSON binary of subtype 0 to plain bytes (str gives the bytes
repr) and any other subtype to bson.Binary, whose repr wraps the bytes repr together
with the subtype. -/
def strOfBinary (data : List Nat) (subtype : Nat) : String :=
  if subtype = 0 then pyBytesRepr data
  else "Binary(" ++ pyBytesRepr data ++ ", " ++ toString subtype ++ ")"

/-- json_serialize (backup.py, lines 17-31): None, datetime and ObjectId map to None
and tagged wrappers; bytes/bytearray map to str(obj); everything else is returned
unchanged. The try/except wrapper is dead in this model, since no branch of the body
can raise. -/
def json_serialize (obj : Value) : Value :=
  match obj with
  | .null => .null
  | .datetime iso => .doc [("$type", .str "datetime"), ("$value", .str iso)]
  | .objectId hex => .doc [("$type", .str "ObjectId"), ("$value", .str hex)]
  | .binary data subtype => .str (strOfBinary data subtype)
  | v => v

mutual
/-- The per-field loop of process_document (backup.py, lines 44-58): nested dicts
recurse through process_document, lists are mapped elementwise, and every other value
goes through json_serialize. -/
def processFields : List (String × Value) → List (String × Value)
  | [] => []
  | (k, v) :: rest => (k, processField v) :: processFields rest

/-- Processing of one field value (backup.py, lines 46-55). For a dict v the code
calls process_document(v), which (v being a dict) returns the dict of its processed
fields; that body is inlined here. -/
def processField : Value → Value
  | .doc fs => .doc (processFields fs)
  | .arr items => .arr (processItems items)
  | v => json_serialize v

/-- The list comprehension of backup.py, lines 49-53: dict items recurse through
process_document, every other item — including a nested list — goes through
json_serialize, which leaves a list unchanged. -/
def processItems : List Value → List Value
  | [] => []
  | x :: rest => processItem x :: processItems rest

/-- One item of the list comprehension (backup.py, lines 50-52). -/
def processItem : Value → Value
  | .doc fs => .doc (processFields fs)
  | v => json_serialize v
end

/-- process_document (backup.py, lines 33-62): None and any non-mapping input give
the empty document, a dict is processed field by field. The per-field try/except
(lines 56-58) is dead in this model since no branch can raise. -/
def process_document : Value → Value
  | .null => .doc []
  | .doc fields => .doc (processFields fields)
  | _ => .doc []

/-- Membership test for a key of a document, as Python's "k in value" on a dict. -/
def hasKey (fields : List (String × Value)) (key : String) : Bool :=
  match fields with
  | [] => false
  | (k, _) :: rest => k = key || hasKey rest key

/-- Lookup of a key of a document, as Python's value[k] on a dict. -/
def lookupField (fields : List (String × Value)) (key : String) : Option Value :=
  match fields with
  | [] => none
  | (k, v) :: rest => if k = key then some v else lookupField rest key

/-- The ObjectId constructor applied to a decoded wire value (restore.py, line 59):
it raises on non-string input. Hex-validity of the string is abstracted away: the
only strings the codec feeds it are str(ObjectId) outputs, which are valid. -/
def objectIdOfValue : Value → Except String Value
  | .str s => .ok (.objectId s)
  | _ => .error "ObjectId: not a string"

/-- datetime.fromisoformat applied to a decoded wire value (restore.py, line 61): it
raises on non-string input. ISO-validity of the string is abstracted away: the only
strings the codec feeds it are datetime.isoformat outputs, which are valid. -/
def datetimeFromisoformat : Value → Except String Value
  | .str s => .ok (.datetime s)
  | _ => .error "fromisoformat: not a string"

mutual
/-- restore_types (restore.py, lines 52-65): a dict carrying both a type tag and a
value field is decoded as a tagged wrapper when the tag is the string ObjectId or
datetime; any other dict — including one with an unrecognized tag — is decoded field
by field; lists recurse elementwise; every other value is returned unchanged. An
exception raised by a wrapper constructor propagates as an error. -/
def restore_types : Value → Except String Value
  | .doc fields =>
    if hasKey fields "$type" && hasKey fields "$value" then
      match lookupField fields "$type", lookupField fields "$value" with
      | some (Value.str typeName), some typeValue =>
        if typeName = "ObjectId" then objectIdOfValue typeValue
        else if typeName = "datetime" then datetimeFromisoformat typeValue
        else
          match restoreFields fields with
          | .ok fields2 => .ok (.doc fields2)
          | .error e => .error e
      | _, _ =>
        match restoreFields fields with
        | .ok fields2 => .ok (.doc fields2)
        | .error e => .error e
    else
      match restoreFields fields with
      | .ok fields2 => .ok (.doc fields2)
      | .error e => .error e
  | .arr items =>
    match restoreItems items with
    | .ok items2 => .ok (.arr items2)
    | .error e => .error e
  | v => .ok v

/-- The dict comprehension of restore.py, line 62, with left-to-right evaluation and
exception propagation. -/
def restoreFields : List (String × Value) → Except String (List (String × Value))
  | [] => .ok []
  | (k, v) :: rest =>
    match restore_types v, restoreFields rest with
    | .ok v2, .ok rest2 => .ok ((k, v2) :: rest2)
    | .error e, _ => .error e
    | .ok _, .error e => .error e

/-- The list comprehension of restore.py, line 64, with left-to-right evaluation and
exception propagation. -/
def restoreItems : List Value → Except String (List Value)
  | [] => .ok []
  | x :: rest =>
    match restore_types x, restoreItems rest with
    | .ok x2, .ok rest2 => .ok (x2 :: rest2)
    | .error e, _ => .error e
    | .ok _, .error e => .error e
end

mutual
/-- Values for which the encode/decode round trip can hold: binary blobs are excluded
(json_serialize stringifies them), and so is any (sub)document carrying both a
"$type" and a "$value" key, which restore_types would misread as a tagged wrapper. -/
def goodValue : Value → Bool
  | .binary _ _ => false
  | .doc fields => (!(hasKey fields "$type" && hasKey fields "$value")) && goodFields fields
  | .arr items => goodItems items
  | _ => true

/-- goodValue on every field of a document. -/
def goodFields : List (String × Value) → Bool
  | [] => true
  | (_, v) :: rest => goodValue v && goodFields rest

/-- goodValue on every item of an array. -/
def goodItems : List Value → Bool
  | [] => true
  | x :: rest => goodValue x && goodItems rest
end

/-- Discriminator for mapping inputs of process_document: only a dict has the items
attribute the code tests for. -/
def isMapping : Value → Bool
  | .doc _ => true
  | _ => false

/-- A two-field tagged wrapper object, the shape the specification prescribes for
timestamp, extended-identifier and binary encodings. -/
def isTaggedWrapper : Value → Bool
  | .doc [(k1, _), (k2, _)] => k1 = "$type" && k2 = "$value"
  | _ => false

/-- A source document as the backup cursor yields it: its primary key (the
extended-identifier, abstracted to an integer so that the strict order used by the
resume query is explicit) together with its remaining fields. -/
structure SDoc where
  id : Int
  fields : List (String × Value)

/-- The full document handed to process_document, with the primary key under the
reserved key of the driver. -/
def SDoc.toValue (d : SDoc) : Value :=
  .doc (("_id", Value.int d.id) :: d.fields)

/-- The on-disk state of one collection's backup file: the processed documents whose
JSON fragments have been flushed, and whether the closing bracket was written. The
comma/indentation byte layout carries no information beyond the document sequence and
is abstracted away. -/
structure BFile where
  docs : List Value
  closed : Bool

/-- Result of a backup_collection invocation. -/
inductive BackupOutcome where
  | success (processedTotal : Nat)
  | transientExhausted
  | noCollection
deriving DecidableEq

/-- Models collection.find(query, batch_size=...) as issued at backup.py, lines
159-160: the filter is empty on the first attempt and a strict lower bound on _id
when resuming. No sort is requested, so the driver returns the matching documents in
the collection's natural order — modelled as the given list order — and not
necessarily in _id order. -/
def backupCursor (docs : List SDoc) (lastProcessedId : Option Int) : List SDoc :=
  match lastProcessedId with
  | none => docs
  | some i => docs.filter (fun d => i < d.id)

/-- Whether a document sequence is in strictly ascending _id order. -/
def ascendingIds : List SDoc → Bool
  | [] => true
  | [_] => true
  | a :: b :: rest => (a.id < b.id) && ascendingIds (b :: rest)

/-- Mutable state of the for-doc-in-cursor loop of backup_collection. -/
structure LoopState where
  batch : List Value
  fileDocs : List Value
  lastProcessedId : Option Int
  processedTotal : Nat

/-- The for-doc-in-cursor loop of backup_collection (backup.py, lines 163-189) over
the documents the cursor yields: each document is processed with process_document and
appended to the in-memory batch, the resume cursor advances to its _id as soon as it
is read (line 167), and the batch is flushed to the file when it reaches batchSize
(lines 172-183). -/
def runCursorLoop (batchSize : Nat) : List SDoc → LoopState → LoopState
  | [], st => st
  | d :: rest, st =>
    let pdoc := process_document d.toValue
    let batch2 := st.batch ++ [pdoc]
    let st2 : LoopState :=
      if batchSize ≤ batch2.length then
        { batch := [], fileDocs := st.fileDocs ++ batch2,
          lastProcessedId := some d.id, processedTotal := st.processedTotal + 1 }
      else
        { batch := batch2, fileDocs := st.fileDocs,
          lastProcessedId := some d.id, processedTotal := st.processedTotal + 1 }
    runCursorLoop batchSize rest st2

/-- State carried from one retry attempt to the next: the file (none until first
opened), the resume cursor and the cumulative count, exactly the variables that
persist across iterations of the while loop (backup.py, lines 112-114). -/
structure AttemptState where
  file : Option BFile
  lastProcessedId : Option Int
  processedTotal : Nat

/-- How one attempt ended: the cursor ran to completion, or a transient
ConnectionFailure/OperationFailure was raised during iteration. -/
inductive AttemptResult where
  | completed (st : AttemptState)
  | transient (st : AttemptState)

/-- Completion path of an attempt (backup.py, lines 191-202): run the loop to the
cursor's end, write any remaining in-memory batch, write the closing bracket and
report success. -/
def finishAttempt (batchSize : Nat) (cdocs : List SDoc) (fileDocs0 : List Value)
    (lpid : Option Int) (total : Nat) : AttemptState :=
  let fin := runCursorLoop batchSize cdocs
    { batch := [], fileDocs := fileDocs0, lastProcessedId := lpid, processedTotal := total }
  { file := some { docs := fin.fileDocs ++ fin.batch, closed := true },
    lastProcessedId := fin.lastProcessedId, processedTotal := fin.processedTotal }

/-- One iteration of the while-loop body of backup_collection (backup.py, lines
117-222). The file opens in write mode with a fresh opening bracket when no resume
cursor is set, and in append mode otherwise (lines 148-152). failAfter gives the
number of cursor fetches that succeed in this attempt before the connection raises a
transient failure — a failure can strike on any fetch, including the final
exhaustion check — while none means the cursor runs to completion. When the failure
strikes, the documents sitting in the in-memory batch are lost, but the resume
cursor keeps the _id of the last document read. -/
def runAttempt (batchSize : Nat) (docs : List SDoc) (st : AttemptState)
    (failAfter : Option Nat) : AttemptResult :=
  let fileDocs0 : List Value :=
    match st.lastProcessedId, st.file with
    | none, _ => []
    | some _, some f => f.docs
    | some _, none => []
  let cdocs := backupCursor docs st.lastProcessedId
  match failAfter with
  | some k =>
    if k ≤ cdocs.length then
      let fin := runCursorLoop batchSize (cdocs.take k)
        { batch := [], fileDocs := fileDocs0,
          lastProcessedId := st.lastProcessedId, processedTotal := st.processedTotal }
      .transient { file := some { docs := fin.fileDocs, closed := false },
                   lastProcessedId := fin.lastProcessedId,
                   processedTotal := fin.processedTotal }
    else .completed (finishAttempt batchSize cdocs fileDocs0 st.lastProcessedId st.processedTotal)
  | none => .completed (finishAttempt batchSize cdocs fileDocs0 st.lastProcessedId st.processedTotal)

/-- The retry loop of backup_collection (backup.py, lines 116-228): attempts run
while the retry counter has not passed maxRetries; a transient failure increments the
counter, waits and resumes with the same file and resume cursor; on exhaustion the
function returns failure, and the partial file is NOT deleted — the unlink at lines
220-221 sits in the generic exception handler, which ConnectionFailure and
OperationFailure never reach. -/
def backupLoop (batchSize : Nat) (docs : List SDoc) (failSchedule : Nat → Option Nat) :
    Nat → Nat → AttemptState → BackupOutcome × Option BFile
  | attempt, retriesLeft, st =>
    match runAttempt batchSize docs st (failSchedule attempt) with
    | .completed st2 => (.success st2.processedTotal, st2.file)
    | .transient st2 =>
      match retriesLeft with
      | r + 1 => backupLoop batchSize docs failSchedule (attempt + 1) r st2
      | 0 => (.transientExhausted, st2.file)

/-- backup_collection (backup.py, lines 96-228) for a collection whose documents are
given in natural order, under a schedule of transient-failure injections. Directory
creation and the collStats estimate (progress sizing only) always succeed in the
model; the existence precondition check of line 121 is kept. -/
def backup_collection (collectionExists : Bool) (batchSize maxRetries : Nat)
    (docs : List SDoc) (failSchedule : Nat → Option Nat) :
    BackupOutcome × Option BFile :=
  if collectionExists then
    backupLoop batchSize docs failSchedule 0 maxRetries
      { file := none, lastProcessedId := none, processedTotal := 0 }
  else (.noCollection, none)

/-- The destination database as restore_collection touches it: the collections that
exist, each with its document list. MongoDB creates a collection on first insert, so
an entry is present exactly when the collection exists. -/
abbrev Dest := List (String × List Value)

/-- Whether the collection is listed by list_collection_names (restore.py, line 87). -/
def hasColl (dest : Dest) (name : String) : Bool :=
  match dest with
  | [] => false
  | (n, _) :: rest => n = name || hasColl rest name

/-- db[collection_name].drop() (restore.py, line 90). -/
def dropColl (dest : Dest) (name : String) : Dest :=
  match dest with
  | [] => []
  | (n, ds) :: rest => if n = name then dropColl rest name else (n, ds) :: dropColl rest name

/-- db[collection_name].insert_many(batch) (restore.py, lines 117 and 123): appends
to the collection, creating it if absent. -/
def insert_many (dest : Dest) (name : String) (batch : List Value) : Dest :=
  match dest with
  | [] => [(name, batch)]
  | (n, ds) :: rest =>
    if n = name then (n, ds ++ batch) :: rest else (n, ds) :: insert_many rest name batch

/-- The contents of a collection, none when it does not exist. -/
def lookupColl (dest : Dest) (name : String) : Option (List Value) :=
  match dest with
  | [] => none
  | (n, ds) :: rest => if n = name then some ds else lookupColl rest name

/-- The backup file as restore_collection observes it: absent (line 93), present but
rejected by json.load (truncated or invalid JSON), or parsed to a top-level array of
wire documents. The JSON grammar itself belongs to the Python standard library and is
embedded at the level of its observable parse result. -/
inductive BackupFileState where
  | absent
  | invalidJson
  | parsed (documents : List Value)

/-- Result of a restore_collection invocation: True, False, or the raised
RestoreError for an existing collection (restore.py, line 89). success carries the
total document count the code logs on line 126. -/
inductive RestoreOutcome where
  | success (total : Nat)
  | failure
  | collectionExistsError
deriving DecidableEq

/-- The batched insert loop of restore_collection (restore.py, lines 108-124): each
wire document is decoded with restore_types and appended to the current batch, which
is bulk-inserted when it reaches batchSize; a trailing non-empty batch is inserted
after the loop. A decode exception aborts the loop — the generic handler of lines
129-131 turns it into failure — but batches already inserted remain inserted. -/
def restoreLoop (name : String) (batchSize : Nat) :
    List Value → List Value → Dest → Bool × Dest
  | [], currentBatch, dest =>
    (true, if currentBatch.length = 0 then dest else insert_many dest name currentBatch)
  | d :: rest, currentBatch, dest =>
    match restore_types d with
    | .error _ => (false, dest)
    | .ok rd =>
      let batch2 := currentBatch ++ [rd]
      if batchSize ≤ batch2.length then
        restoreLoop name batchSize rest [] (insert_many dest name batch2)
      else
        restoreLoop name batchSize rest batch2 dest

/-- The body of restore_collection from the backup-file check on (restore.py, lines
92-131): an absent file returns False, a file json.load rejects returns False via the
generic handler, and a parsed array drives the insert loop with the hardcoded batch
size 1000 (line 102). -/
def restoreFromFile (dest : Dest) (backupFile : BackupFileState) (name : String) :
    RestoreOutcome × Dest :=
  match backupFile with
  | .absent => (.failure, dest)
  | .invalidJson => (.failure, dest)
  | .parsed documents =>
    match restoreLoop name 1000 documents [] dest with
    | (true, dest2) => (.success documents.length, dest2)
    | (false, dest2) => (.failure, dest2)

/-- restore_collection (restore.py, lines 67-137): the existence check and the forced
drop (lines 87-90) come first — before the backup file is even looked at — then the
file is read and the insert loop runs. -/
def restore_collection (dest : Dest) (backupFile : BackupFileState) (name : String)
    (force : Bool) : RestoreOutcome × Dest :=
  if hasColl dest name then
    if force then restoreFromFile (dropColl dest name) backupFile name
    else (.collectionExistsError, dest)
  else restoreFromFile dest backupFile name

/-- A concrete document exercising every round-trippable constructor: null, bool,
int, float, string, timestamp, extended-identifier, empty array, empty object, a
mixed array with a nested document and a nested array, and a deeper composite. -/
def c1WitnessFields : List (String × Value) :=
  [("n", Value.null), ("b", Value.bool true), ("i", Value.int (-3)),
   ("f", Value.float 4614256656552045848), ("s", Value.str "hello"),
   ("t", Value.datetime "2021-06-01T12:00:00.123456"),
   ("o", Value.objectId "507f1f77bcf86cd799439011"),
   ("ea", Value.arr []), ("eo", Value.doc []),
   ("mix", Value.arr [Value.int 1, Value.null, Value.str "x",
      Value.datetime "1999-12-31T23:59:59",
      Value.doc [("k", Value.objectId "507f191e810c19729de860ea")],
      Value.arr [Value.int 2, Value.arr []]]),
   ("nested", Value.doc [("inner", Value.doc [("deep", Value.arr [Value.bool false])])])]


example : process_document (.doc [("a", .arr [.int 3, .null])])
    = .doc [("a", .arr [.int 3, .null])] := rfl

example : json_serialize (.binary [104, 105] 0) = .str "b'hi'" := rfl

example : restore_types (process_document (.doc [("a", .datetime "2020-01-01T00:00:00")]))
    = .ok (.doc [("a", .datetime "2020-01-01T00:00:00")]) := rfl

theorem lookupField_eq_none (fields : List (String × Value)) (key : String)
    (h : hasKey fields key = false) : lookupField fields key = none := by
  induction fields with
  | nil => rfl
  | cons kv rest ih =>
    obtain ⟨k, v⟩ := kv
    simp only [hasKey, Bool.or_eq_false_iff] at h
    simp only [lookupField]
    rw [if_neg (by simpa using h.1)]
    exact ih h.2

theorem hasKey_processFields (fields : List (String × Value)) (key : String) :
    hasKey (processFields fields) key = hasKey fields key := by
  induction fields with
  | nil => rfl
  | cons kv rest ih =>
    obtain ⟨k, v⟩ := kv
    simp only [processFields, hasKey, ih]

theorem processFields_keys (fields : List (String × Value)) :
    (processFields fields).map Prod.fst = fields.map Prod.fst := by
  induction fields with
  | nil => rfl
  | cons kv rest ih =>
    obtain ⟨k, v⟩ := kv
    simp only [processFields, List.map_cons, ih]

mutual
/-- restore_types is the identity on values the encoder has not touched, as long as
no (sub)document carries the tagged-wrapper key pair. -/
theorem restore_types_id (v : Value) (h : goodValue v = true) :
    restore_types v = .ok v := by
  cases v with
  | doc fields =>
    simp only [goodValue, Bool.and_eq_true, Bool.not_eq_true'] at h
    simp only [restore_types, h.1, Bool.false_eq_true, if_false,
      restoreFields_id fields h.2]
  | arr items =>
    simp only [goodValue] at h
    simp only [restore_types, restoreItems_id items h]
  | null => rfl
  | bool b => rfl
  | int n => rfl
  | float bits => rfl
  | str s => rfl
  | binary data subtype => simp [goodValue] at h
  | datetime iso => rfl
  | objectId hex => rfl

theorem restoreFields_id (fields : List (String × Value)) (h : goodFields fields = true) :
    restoreFields fields = .ok fields := by
  cases fields with
  | nil => rfl
  | cons kv rest =>
    obtain ⟨k, v⟩ := kv
    simp only [goodFields, Bool.and_eq_true] at h
    simp only [restoreFields, restore_types_id v h.1, restoreFields_id rest h.2]

theorem restoreItems_id (items : List Value) (h : goodItems items = true) :
    restoreItems items = .ok items := by
  cases items with
  | nil => rfl
  | cons x rest =>
    simp only [goodItems, Bool.and_eq_true] at h
    simp only [restoreItems, restore_types_id x h.1, restoreItems_id rest h.2]
end

mutual
/-- Round trip for a single processed field value. -/
theorem roundtrip_field (v : Value) (h : goodValue v = true) :
    restore_types (processField v) = .ok v := by
  cases v with
  | doc fields =>
    simp only [goodValue, Bool.and_eq_true, Bool.not_eq_true'] at h
    simp only [processField, restore_types, hasKey_processFields, h.1,
      Bool.false_eq_true, if_false, roundtrip_fields fields h.2]
  | arr items =>
    simp only [goodValue] at h
    simp only [processField, restore_types, roundtrip_items items h]
  | null => rfl
  | bool b => rfl
  | int n => rfl
  | float bits => rfl
  | str s => rfl
  | binary data subtype => simp [goodValue] at h
  | datetime iso => rfl
  | objectId hex => rfl

theorem roundtrip_fields (fields : List (String × Value)) (h : goodFields fields = true) :
    restoreFields (processFields fields) = .ok fields := by
  cases fields with
  | nil => rfl
  | cons kv rest =>
    obtain ⟨k, v⟩ := kv
    simp only [goodFields, Bool.and_eq_true] at h
    simp only [processFields, restoreFields, roundtrip_field v h.1,
      roundtrip_fields rest h.2]

theorem roundtrip_items (items : List Value) (h : goodItems items = true) :
    restoreItems (processItems items) = .ok items := by
  cases items with
  | nil => rfl
  | cons x rest =>
    simp only [goodItems, Bool.and_eq_true] at h
    cases x with
    | arr inner =>
      simp only [processItems, processItem, json_serialize, restoreItems,
        restore_types_id _ h.1, roundtrip_items rest h.2]
    | doc fs =>
      have hx : restore_types (processItem (.doc fs)) = .ok (.doc fs) := by
        simpa only [processItem, processField] using roundtrip_field (.doc fs) h.1
      simp only [processItems, restoreItems, hx, roundtrip_items rest h.2]
    | null => simp only [processItems, processItem, json_serialize, restoreItems,
        restore_types, roundtrip_items rest h.2]
    | bool b => simp only [processItems, processItem, json_serialize, restoreItems,
        restore_types, roundtrip_items rest h.2]
    | int n => simp only [processItems, processItem, json_serialize, restoreItems,
        restore_types, roundtrip_items rest h.2]
    | float bits => simp only [processItems, processItem, json_serialize, restoreItems,
        restore_types, roundtrip_items rest h.2]
    | str s => simp only [processItems, processItem, json_serialize, restoreItems,
        restore_types, roundtrip_items rest h.2]
    | binary data subtype => simp [goodValue] at h
    | datetime iso =>
      have hx : restore_types (processItem (.datetime iso)) = .ok (.datetime iso) := rfl
      simp only [processItems, restoreItems, hx, roundtrip_items rest h.2]
    | objectId hex =>
      have hx : restore_types (processItem (.objectId hex)) = .ok (.objectId hex) := rfl
      simp only [processItems, restoreItems, hx, roundtrip_items rest h.2]
end

example : backup_collection true 2 3 [⟨1, []⟩, ⟨2, []⟩, ⟨3, []⟩]
      (fun a => if a = 0 then some 3 else none)
    = (.success 3, some { docs := [Value.doc [("_id", Value.int 1)],
        Value.doc [("_id", Value.int 2)]], closed := true }) := rfl

example : backup_collection true 2 0 [⟨1, []⟩, ⟨2, []⟩, ⟨3, []⟩] (fun _ => none)
    = (.success 3, some (BFile.mk [Value.doc [("_id", Value.int 1)],
        Value.doc [("_id", Value.int 2)], Value.doc [("_id", Value.int 3)]] true)) := rfl

example : restore_collection [] (.parsed [Value.doc [("a", Value.int 1)]]) "c" false
    = (.success 1, [("c", [Value.doc [("a", Value.int 1)]])]) := rfl

example : restore_collection [("c", [Value.null])] .absent "c" true
    = (.failure, []) := rfl

example : restore_collection [] (.parsed []) "c" false = (.success 0, []) := rfl

theorem insert_many_append (dest : Dest) (name : String) (a b : List Value) :
    insert_many (insert_many dest name a) name b = insert_many dest name (a ++ b) := by
  induction dest with
  | nil => simp [insert_many]
  | cons c rest ih =>
    obtain ⟨n, ds⟩ := c
    by_cases hn : n = name
    · simp [insert_many, hn]
    · simp [insert_many, hn, ih]

theorem restoreLoop_ok (name : String) (batchSize : Nat) (docs rs : List Value)
    (h : restoreItems docs = .ok rs) :
    ∀ (batch : List Value) (dest : Dest),
      restoreLoop name batchSize docs batch dest
        = (true, if (batch ++ rs).length = 0 then dest
                 else insert_many dest name (batch ++ rs)) := by
  induction docs generalizing rs with
  | nil =>
    intro batch dest
    simp only [restoreItems] at h
    obtain rfl : rs = [] := by
      cases h
      rfl
    rw [List.append_nil]
    simp [restoreLoop]
  | cons d ds ih =>
    intro batch dest
    simp only [restoreItems] at h
    cases hd : restore_types d with
    | error e => rw [hd] at h; cases h
    | ok rd =>
      rw [hd] at h
      cases hds : restoreItems ds with
      | error e => rw [hds] at h; cases h
      | ok rs2 =>
        rw [hds] at h
        obtain rfl : rs = rd :: rs2 := by
          cases h
          rfl
        simp only [restoreLoop, hd]
        by_cases hflush : batchSize ≤ (batch ++ [rd]).length
        · rw [if_pos hflush, ih rs2 hds [] (insert_many dest name (batch ++ [rd]))]
          cases rs2 with
          | nil => simp
          | cons r rs3 => simp [insert_many_append]
        · rw [if_neg hflush, ih rs2 hds (batch ++ [rd]) dest]
          simp

theorem hasColl_dropColl (dest : Dest) (name : String) :
    hasColl (dropColl dest name) name = false := by
  induction dest with
  | nil => rfl
  | cons c rest ih =>
    obtain ⟨n, ds⟩ := c
    by_cases hn : n = name
    · simp [dropColl, hn, ih]
    · simp [dropColl, hasColl, hn, ih]

theorem lookupColl_insert_many (dest : Dest) (name : String) (xs : List Value)
    (h : hasColl dest name = false) :
    lookupColl (insert_many dest name xs) name = some xs := by
  induction dest with
  | nil => simp [insert_many, lookupColl]
  | cons c rest ih =>
    obtain ⟨n, ds⟩ := c
    simp only [hasKey, hasColl, Bool.or_eq_false_iff] at h
    have hn : n ≠ name := by simpa using h.1
    simp [insert_many, lookupColl, hn, ih h.2]

theorem dropColl_length_le (dest : Dest) (name : String) :
    (dropColl dest name).length ≤ dest.length := by
  induction dest with
  | nil => simp [dropColl]
  | cons c rest ih =>
    obtain ⟨n, ds⟩ := c
    simp only [dropColl]
    split
    · simp only [List.length_cons]
      omega
    · simp only [List.length_cons]
      omega

theorem dropColl_length_lt (dest : Dest) (name : String) (h : hasColl dest name = true) :
    (dropColl dest name).length < dest.length := by
  induction dest with
  | nil => cases h
  | cons c rest ih =>
    obtain ⟨n, ds⟩ := c
    simp only [hasColl, Bool.or_eq_true, decide_eq_true_eq] at h
    simp only [dropColl]
    split
    · have := dropColl_length_le rest name
      simp only [List.length_cons]
      omega
    · rename_i hn
      have hrest : hasColl rest name = true := by tauto
      have := ih hrest
      simp only [List.length_cons]
      omega

theorem runAttempt_transient_file (batchSize : Nat) (docs : List SDoc)
    (st st2 : AttemptState) (failAfter : Option Nat)
    (h : runAttempt batchSize docs st failAfter = .transient st2) :
    ∃ ds, st2.file = some { docs := ds, closed := false } := by
  unfold runAttempt at h
  cases failAfter with
  | none => simp at h
  | some k =>
    by_cases hk : k ≤ (backupCursor docs st.lastProcessedId).length
    · simp only [hk, if_pos] at h
      cases h
      exact ⟨_, rfl⟩
    · simp [hk] at h

theorem backupLoop_exhausted_file (batchSize : Nat) (docs : List SDoc)
    (failSchedule : Nat → Option Nat) :
    ∀ (retriesLeft attempt : Nat) (st : AttemptState) (f : Option BFile),
      backupLoop batchSize docs failSchedule attempt retriesLeft st
        = (.transientExhausted, f) →
      ∃ ds, f = some { docs := ds, closed := false } := by
  intro retriesLeft
  induction retriesLeft with
  | zero =>
    intro attempt st f h
    rw [backupLoop] at h
    cases hr : runAttempt batchSize docs st (failSchedule attempt) with
    | completed st2 =>
      rw [hr] at h
      simp at h
    | transient st2 =>
      rw [hr] at h
      simp only [Prod.mk.injEq] at h
      obtain ⟨ds, hds⟩ := runAttempt_transient_file batchSize docs st st2 _ hr
      exact ⟨ds, by rw [← h.2]; exact hds⟩
  | succ r ih =>
    intro attempt st f h
    rw [backupLoop] at h
    cases hr : runAttempt batchSize docs st (failSchedule attempt) with
    | completed st2 =>
      rw [hr] at h
      simp at h
    | transient st2 =>
      rw [hr] at h
      exact ih (attempt + 1) st2 f h

/-- Lemma: restoreFromFile on a parsed non-empty array whose documents all decode
inserts exactly the decoded documents and reports their count. -/
theorem restoreFromFile_parsed (dest : Dest) (name : String) (docs rs : List Value)
    (hdocs : restoreItems docs = .ok rs) (hne : rs ≠ []) :
    restoreFromFile dest (.parsed docs) name
      = (.success docs.length, insert_many dest name rs) := by
  have hloop := restoreLoop_ok name 1000 docs rs hdocs [] dest
  have hlen : ¬((([] : List Value) ++ rs).length = 0) := by
    simpa using hne
  rw [if_neg hlen, List.nil_append] at hloop
  show (match restoreLoop name 1000 docs [] dest with
        | (true, dest2) => (RestoreOutcome.success docs.length, dest2)
        | (false, dest2) => (RestoreOutcome.failure, dest2))
      = (RestoreOutcome.success docs.length, insert_many dest name rs)
  rw [hloop]

/-- C1 counterexample: decode-after-encode is not the identity on every Value of the
grammar in the claim. A top-level binary blob field is encoded by json_serialize as
its bare string form, so decoding yields a string, not the blob (and no sub-type
marker survives); and a document whose own keys are "$type" and "$value" is misread
by restore_types as a tagged wrapper and decoded to a datetime. -/
theorem c1_counterexample :
    restore_types (process_document (Value.doc [("a", Value.binary [104, 105] 0)]))
      ≠ Except.ok (Value.doc [("a", Value.binary [104, 105] 0)])
    ∧ restore_types (process_document (Value.doc
        [("$type", Value.str "datetime"), ("$value", Value.str "2020-01-01T00:00:00")]))
      ≠ Except.ok (Value.doc
        [("$type", Value.str "datetime"), ("$value", Value.str "2020-01-01T00:00:00")]) := by
  constructor
  · have e : restore_types (process_document (Value.doc [("a", Value.binary [104, 105] 0)]))
        = Except.ok (Value.doc [("a", Value.str "b'hi'")]) := rfl
    rw [e]
    simp
  · have e : restore_types (process_document (Value.doc
        [("$type", Value.str "datetime"), ("$value", Value.str "2020-01-01T00:00:00")]))
        = Except.ok (Value.datetime "2020-01-01T00:00:00") := rfl
    rw [e]
    simp

/-- C1 (amended): restore_types after process_document is the identity on every
document built from null, bool, int64, float64, string, timestamp,
extended-identifier and arbitrarily nested document/array composites (empty array
and empty object included), provided no binary blob occurs and no (sub)document
itself carries both a "$type" and a "$value" key: binary blobs are stringified by
the encoder, and that key pair is misread by the decoder as a tagged wrapper. -/
theorem c1_roundtrip (fields : List (String × Value))
    (h : goodValue (Value.doc fields) = true) :
    restore_types (process_document (Value.doc fields)) = .ok (Value.doc fields) := by
  simpa only [processField, process_document] using roundtrip_field (Value.doc fields) h

/-- Witness for c1_roundtrip at the concrete document c1WitnessFields. -/
theorem c1_roundtrip_witness :
    goodValue (Value.doc c1WitnessFields) = true
    ∧ restore_types (process_document (Value.doc c1WitnessFields))
        = .ok (Value.doc c1WitnessFields) :=
  ⟨rfl, c1_roundtrip c1WitnessFields rfl⟩

/-- C2: refutation at a failing input. Three documents with ids 1, 2, 3 in ascending
natural order, batch size 2, one transient failure that strikes after the cursor has
yielded all three documents (two flushed, the third only read into the in-memory
batch), then a clean retry: the invocation returns success reporting 3 processed
documents, but the completed backup file holds only the 2 flushed documents. The
resume query skips id 3 because the resume cursor advanced to it when it was read,
not when it was flushed, and the in-memory batch is discarded by the retry. -/
theorem c2_resume_gap :
    backup_collection true 2 3 [⟨1, []⟩, ⟨2, []⟩, ⟨3, []⟩]
      (fun a => if a = 0 then some 3 else none)
    = (.success 3, some (BFile.mk [Value.doc [("_id", Value.int 1)],
        Value.doc [("_id", Value.int 2)]] true))
    ∧ (backup_collection true 2 3 [⟨1, []⟩, ⟨2, []⟩, ⟨3, []⟩]
        (fun a => if a = 0 then some 3 else none)).2
      ≠ some (BFile.mk [Value.doc [("_id", Value.int 1)],
          Value.doc [("_id", Value.int 2)], Value.doc [("_id", Value.int 3)]] true) := by
  refine ⟨rfl, ?_⟩
  have e : (backup_collection true 2 3 [⟨1, []⟩, ⟨2, []⟩, ⟨3, []⟩]
        (fun a => if a = 0 then some 3 else none)).2
      = some (BFile.mk [Value.doc [("_id", Value.int 1)],
          Value.doc [("_id", Value.int 2)]] true) := rfl
  rw [e]
  simp

/-- C3: refutation at a failing input. The find call of backup_collection carries no
sort specification, so the cursor yields the collection's natural order: for a
collection whose natural order is [id 2, id 1], the first-attempt cursor yields ids
2 then 1 — not ascending extended-identifier order — and the completed run writes
the backup file in that same non-ascending order. -/
theorem c3_cursor_unsorted :
    backupCursor [⟨2, []⟩, ⟨1, []⟩] none = [⟨2, []⟩, ⟨1, []⟩]
    ∧ ascendingIds (backupCursor [⟨2, []⟩, ⟨1, []⟩] none) = false
    ∧ backup_collection true 10 0 [⟨2, []⟩, ⟨1, []⟩] (fun _ => none)
      = (.success 2, some (BFile.mk [Value.doc [("_id", Value.int 2)],
          Value.doc [("_id", Value.int 1)]] true)) :=
  ⟨rfl, rfl, rfl⟩

/-- C4 counterexample: two documents, batch size 1, max_retries 1; a transient
failure after one flushed document and another at the start of the retry exhaust the
budget. backup_collection returns failure, but the half-written bracket-less file —
one document, closing bracket never written — is still on disk, not deleted. -/
theorem c4_counterexample :
    backup_collection true 1 1 [⟨1, []⟩, ⟨2, []⟩]
      (fun a => if a = 0 then some 1 else some 0)
    = (.transientExhausted, some (BFile.mk [Value.doc [("_id", Value.int 1)]] false)) := rfl

/-- C4 (amended): whenever backup_collection exhausts its retry budget on transient
connectivity failures it returns failure, but the partial backup file is NOT
deleted: it is left on disk without its closing bracket. The unlink sits only in the
generic exception handler, which transient failures never reach. -/
theorem c4_amended (collectionExists : Bool) (batchSize maxRetries : Nat)
    (docs : List SDoc) (failSchedule : Nat → Option Nat) (f : Option BFile)
    (h : backup_collection collectionExists batchSize maxRetries docs failSchedule
          = (.transientExhausted, f)) :
    ∃ ds, f = some { docs := ds, closed := false } := by
  unfold backup_collection at h
  cases collectionExists with
  | false => simp at h
  | true =>
    simp only [if_true] at h
    exact backupLoop_exhausted_file batchSize docs failSchedule maxRetries 0 _ f h

/-- Witness for c4_amended at the concrete exhausted run. -/
theorem c4_amended_witness :
    ∃ ds, (some (BFile.mk [Value.doc [("_id", Value.int 1)]] false) : Option BFile)
      = some { docs := ds, closed := false } :=
  c4_amended true 1 1 [⟨1, []⟩, ⟨2, []⟩] (fun a => if a = 0 then some 1 else some 0)
    (some (BFile.mk [Value.doc [("_id", Value.int 1)]] false)) rfl

/-- C5 counterexample: a backup file that fails to parse does not produce a distinct
CorruptBackup outcome — restore_collection returns exactly the same generic failure
it returns for a missing backup file, so the two are indistinguishable. -/
theorem c5_counterexample :
    restore_collection [] .invalidJson "c" false = (.failure, [])
    ∧ restore_collection [] .absent "c" false = (.failure, [])
    ∧ (restore_collection [] .invalidJson "c" false).1
      = (restore_collection [] .absent "c" false).1 :=
  ⟨rfl, rfl, rfl⟩

/-- C5 (amended): on a backup file whose content fails to parse as a JSON array,
restore_collection aborts with the generic failure outcome (False — not a distinct
CorruptBackup), and no document is inserted: the destination comes back unchanged,
except that with force set on an existing collection the drop performed before the
file was read persists. -/
theorem c5_amended (dest : Dest) (name : String) (force : Bool) :
    restore_collection dest .invalidJson name force
      = if hasColl dest name then
          if force then (.failure, dropColl dest name) else (.collectionExistsError, dest)
        else (.failure, dest) := by
  unfold restore_collection
  split
  · split
    · rfl
    · rfl
  · rfl

/-- C6: conflict policy. With an existing target collection: without force,
restore_collection signals the distinct CollectionExists outcome (the raised
RestoreError) and performs no destructive action — the destination comes back
unchanged, whatever the backup file holds; with force, the existing collection is
dropped first and the rest of the restore runs against the dropped destination, so
that on a successful non-empty restore the collection holds exactly the decoded
backup documents and the call reports success with their count. -/
theorem c6_conflict_policy (dest : Dest) (name : String) (h : hasColl dest name = true) :
    (∀ f : BackupFileState,
      restore_collection dest f name false = (.collectionExistsError, dest))
    ∧ (∀ f : BackupFileState,
      restore_collection dest f name true = restoreFromFile (dropColl dest name) f name)
    ∧ (∀ docs rs : List Value, restoreItems docs = .ok rs → rs ≠ [] →
      restore_collection dest (.parsed docs) name true
        = (.success docs.length, insert_many (dropColl dest name) name rs)
      ∧ lookupColl (restore_collection dest (.parsed docs) name true).2 name = some rs) := by
  refine ⟨?_, ?_, ?_⟩
  · intro f
    simp [restore_collection, h]
  · intro f
    simp [restore_collection, h]
  · intro docs rs hdocs hne
    have e : restore_collection dest (.parsed docs) name true
        = (.success docs.length, insert_many (dropColl dest name) name rs) := by
      rw [show restore_collection dest (.parsed docs) name true
            = restoreFromFile (dropColl dest name) (.parsed docs) name by
          simp [restore_collection, h]]
      exact restoreFromFile_parsed (dropColl dest name) name docs rs hdocs hne
    refine ⟨e, ?_⟩
    rw [e]
    exact lookupColl_insert_many (dropColl dest name) name rs (hasColl_dropColl dest name)

/-- Witness for c6_conflict_policy at a concrete destination and backup. -/
theorem c6_witness :
    hasColl [("c", [Value.int 9])] "c" = true
    ∧ restore_collection [("c", [Value.int 9])] .absent "c" false
        = (.collectionExistsError, [("c", [Value.int 9])])
    ∧ lookupColl (restore_collection [("c", [Value.int 9])]
        (.parsed [Value.doc [("a", Value.int 1)]]) "c" true).2 "c"
        = some [Value.doc [("a", Value.int 1)]] := by
  refine ⟨rfl, (c6_conflict_policy [("c", [Value.int 9])] "c" rfl).1 .absent, ?_⟩
  exact ((c6_conflict_policy [("c", [Value.int 9])] "c" rfl).2.2
    [Value.doc [("a", Value.int 1)]] [Value.doc [("a", Value.int 1)]] rfl
    (by simp)).2

/-- C7 counterexample: restoring a backup that parses to the empty array returns
success with count 0 but creates nothing: the destination still has no such
collection afterwards — indistinguishable from not restoring at all. -/
theorem c7_counterexample :
    restore_collection [] (.parsed []) "c" false = (.success 0, [])
    ∧ hasColl (restore_collection [] (.parsed []) "c" false).2 "c" = false :=
  ⟨rfl, rfl⟩

/-- C7 (amended): on a backup file parsing to the empty array, restore_collection
returns success with count 0 and performs no insert; it does NOT create the
collection — a destination without the target collection comes back unchanged — and
with force an existing target collection is dropped and never recreated. -/
theorem c7_amended (dest : Dest) (name : String) (force : Bool) :
    (hasColl dest name = false →
      restore_collection dest (.parsed []) name force = (.success 0, dest))
    ∧ (hasColl dest name = true →
      restore_collection dest (.parsed []) name true = (.success 0, dropColl dest name)) := by
  constructor
  · intro h
    simp [restore_collection, h, restoreFromFile, restoreLoop]
  · intro h
    simp [restore_collection, h, restoreFromFile, restoreLoop]

/-- Witness for c7_amended: a destination without the collection is unchanged, and
with force an existing collection is dropped and not recreated. -/
theorem c7_amended_witness :
    hasColl [("d", [Value.null])] "c" = false
    ∧ restore_collection [("d", [Value.null])] (.parsed []) "c" false
        = (.success 0, [("d", [Value.null])])
    ∧ hasColl [("c", [Value.int 1])] "c" = true
    ∧ restore_collection [("c", [Value.int 1])] (.parsed []) "c" true
        = (.success 0, []) := by
  refine ⟨rfl, (c7_amended [("d", [Value.null])] "c" false).1 rfl, rfl, ?_⟩
  exact (c7_amended [("c", [Value.int 1])] "c" true).2 rfl

/-- C8 counterexample: json_serialize does not produce a two-field tagged wrapper
for a binary blob — it yields the bare string form of the blob — even though it does
produce one for a timestamp. -/
theorem c8_counterexample :
    json_serialize (Value.binary [104, 105] 0) = Value.str "b'hi'"
    ∧ isTaggedWrapper (json_serialize (Value.binary [104, 105] 0)) = false
    ∧ isTaggedWrapper (json_serialize (Value.datetime "2020-01-01T00:00:00")) = true :=
  ⟨rfl, rfl, rfl⟩

/-- C8 (amended): timestamps and extended-identifiers are encoded as two-field
tagged wrapper objects, but a binary blob is encoded as its bare str(obj) form, with
no wrapper and no structured sub-type field. -/
theorem c8_amended (iso hex : String) (data : List Nat) (subtype : Nat) :
    json_serialize (Value.datetime iso)
      = Value.doc [("$type", Value.str "datetime"), ("$value", Value.str iso)]
    ∧ json_serialize (Value.objectId hex)
      = Value.doc [("$type", Value.str "ObjectId"), ("$value", Value.str hex)]
    ∧ isTaggedWrapper (json_serialize (Value.datetime iso)) = true
    ∧ isTaggedWrapper (json_serialize (Value.objectId hex)) = true
    ∧ json_serialize (Value.binary data subtype) = Value.str (strOfBinary data subtype) :=
  ⟨rfl, rfl, rfl, rfl, rfl⟩

/-- C9: the existence check and the forced drop precede the backup-file existence
check. With force true, an existing target collection and an absent backup file, the
call returns failure AND the destination has already lost the collection: the
destination's state changes even though the operation fails. -/
theorem c9_drop_before_file_check (dest : Dest) (name : String)
    (h : hasColl dest name = true) :
    restore_collection dest .absent name true = (.failure, dropColl dest name)
    ∧ dropColl dest name ≠ dest := by
  constructor
  · simp [restore_collection, h, restoreFromFile]
  · intro he
    have hlt := dropColl_length_lt dest name h
    rw [he] at hlt
    omega

/-- Witness for c9_drop_before_file_check. -/
theorem c9_witness :
    hasColl [("c", [Value.null])] "c" = true
    ∧ restore_collection [("c", [Value.null])] .absent "c" true = (.failure, []) :=
  ⟨rfl, (c9_drop_before_file_check [("c", [Value.null])] "c" rfl).1⟩

/-- C10: process_document is total and never raises in the model: None gives the
empty document, any non-mapping input gives the empty document, and a mapping input
gives a document with exactly the same keys in the same order. The per-field
exception path that would map a failing field to null, and json_serialize's own
catch-all, are unreachable: every branch of both functions is total. -/
theorem c10_process_document_total :
    process_document Value.null = Value.doc []
    ∧ (∀ v : Value, isMapping v = false → process_document v = Value.doc [])
    ∧ (∀ fields : List (String × Value),
        process_document (Value.doc fields) = Value.doc (processFields fields)
        ∧ (processFields fields).map Prod.fst = fields.map Prod.fst) := by
  refine ⟨rfl, ?_, ?_⟩
  · intro v h
    cases v <;> first
      | rfl
      | simp [isMapping] at h
  · intro fields
    exact ⟨rfl, processFields_keys fields⟩

/-- Witness for c10_process_document_total at a non-mapping input and a mapping
input whose field needs the codec. -/
theorem c10_witness :
    isMapping (Value.arr [Value.int 1]) = false
    ∧ process_document (Value.arr [Value.int 1]) = Value.doc []
    ∧ (processFields [("k", Value.datetime "2020-01-01T00:00:00")]).map Prod.fst
        = ["k"] := by
  refine ⟨rfl, c10_process_document_total.2.1 (Value.arr [Value.int 1]) rfl, ?_⟩
  exact (c10_process_document_total.2.2 [("k", Value.datetime "2020-01-01T00:00:00")]).2
